import Mathlib

/-!
Verification of `eci_to_ecef.py`: conversion of an Earth-Centered Inertial
(ECI) position vector to Earth-Centered Earth-Fixed (ECEF) coordinates at a
given civil date/time, via a fractional Julian Date and the GMST angle.

Modelling conventions for the shallow embedding:
* Python floats are modelled as real numbers (ℝ); Python ints as ℤ.
* `math.floor` on a float is `Int.floor : ℝ → ℤ`.
* Python's `%` on floats, whose result carries the sign of the divisor, is
  `pymod a b = a - b * ⌊a / b⌋`.
* The top-level script (argument parsing, printing, `exit()`) is modelled as
  a function from the argument vector to an observable outcome record.
-/

/-- Python's float modulo operator: `a % b` equals `a - b * ⌊a / b⌋`, so for a
positive divisor `b` the result lies in `[0, b)`. -/
noncomputable def pymod (a b : ℝ) : ℝ := a - b * ⌊a / b⌋

/-- `ymdhms_to_jd` (src/eci_to_ecef.py lines 31-45): fractional Julian Date of
a civil date/time, by the standard Gregorian-calendar algorithm.  Calendar
fields are Python ints except `second`, a Python float. -/
noncomputable def ymdhms_to_jd (year month day hour minute : ℤ) (second : ℝ) : ℝ :=
  let year' : ℤ := if month ≤ 2 then year - 1 else year
  let month' : ℤ := if month ≤ 2 then month + 12 else month
  let A : ℤ := ⌊(year' : ℝ) / 100⌋
  let B : ℤ := 2 - A + ⌊(A : ℝ) / 4⌋
  let C : ℤ := ⌊(365.25 : ℝ) * ((year' : ℝ) + 4716)⌋
  let D : ℤ := ⌊(30.6001 : ℝ) * ((month' : ℝ) + 1)⌋
  let jd : ℝ := (C : ℝ) + (D : ℝ) + (day : ℝ) + (B : ℝ) - 1524.5
  let day_fraction : ℝ := ((hour : ℝ) + (minute : ℝ) / 60 + second / 3600) / 24
  jd + day_fraction

/-- The `GMST_sec` intermediate of `jd_to_gmst` (src/eci_to_ecef.py lines
49-50): the IAU 1982 GMST polynomial in seconds of time, in the Julian
centuries `T` since the J2000.0 epoch. -/
noncomputable def GMST_sec (jd : ℝ) : ℝ :=
  let T := (jd - 2451545.0) / 36525.0
  67310.54841 + (876600.0 * 3600.0 + 8640184.812866) * T + 0.093104 * T ^ 2 - 6.2e-6 * T ^ 3

/-- `jd_to_gmst` (src/eci_to_ecef.py lines 48-54): GMST in degrees obtained by
dividing `GMST_sec` by 240, reducing modulo 360 with Python's `%`, and adding
360 if the result is negative. -/
noncomputable def jd_to_gmst (jd : ℝ) : ℝ :=
  let GMST_deg := pymod (GMST_sec jd / 240.0) 360.0
  if GMST_deg < 0 then GMST_deg + 360.0 else GMST_deg

/-- `degrees_to_radians` (src/eci_to_ecef.py lines 57-58). -/
noncomputable def degrees_to_radians (degrees : ℝ) : ℝ := degrees * Real.pi / 180.0

/-- The rotation step of `eci_to_ecef` (src/eci_to_ecef.py lines 63-73): given
the GMST angle in degrees, rotate the ECI vector about the z-axis. -/
noncomputable def rotate_eci_to_ecef (gmst x y z : ℝ) : ℝ × ℝ × ℝ :=
  let gmst_rad := degrees_to_radians gmst
  let cos_gmst := Real.cos gmst_rad
  let sin_gmst := Real.sin gmst_rad
  (cos_gmst * x + sin_gmst * y, -sin_gmst * x + cos_gmst * y, z)

/-- `eci_to_ecef` (src/eci_to_ecef.py lines 61-73): compute GMST from the
Julian Date and apply the z-axis rotation to the ECI vector. -/
noncomputable def eci_to_ecef (jd x y z : ℝ) : ℝ × ℝ × ℝ :=
  rotate_eci_to_ecef (jd_to_gmst jd) x y z

/-- Observable outcome of one run of the script's top level: whether the usage
message was printed, the coordinate triple printed (if any), the process exit
status, and whether the numeric pipeline was executed. -/
structure CliResult where
  usagePrinted : Bool
  coords : Option (ℝ × ℝ × ℝ)
  exitCode : Nat
  computed : Bool

/-- Top-level script body (src/eci_to_ecef.py lines 87-110): if `len(sys.argv)`
is 10 (script name plus nine user arguments), parse the arguments, run the
pipeline and print the three ECEF coordinates, ending with exit status 0;
otherwise print the usage message and call Python's bare `exit()`, which
terminates with exit status 0.  `toInt` and `toFloat` stand for Python's
built-in `int()`/`float()` conversions, which are external to the repository. -/
noncomputable def scriptMain (argv : List String)
    (toInt : String → ℤ) (toFloat : String → ℝ) : CliResult :=
  if argv.length = 10 then
    let year := toInt (argv.getD 1 "")
    let month := toInt (argv.getD 2 "")
    let day := toInt (argv.getD 3 "")
    let hour := toInt (argv.getD 4 "")
    let minute := toInt (argv.getD 5 "")
    let second := toFloat (argv.getD 6 "")
    let eci_x_km := toFloat (argv.getD 7 "")
    let eci_y_km := toFloat (argv.getD 8 "")
    let eci_z_km := toFloat (argv.getD 9 "")
    let jd := ymdhms_to_jd year month day hour minute second
    ⟨false, some (eci_to_ecef jd eci_x_km eci_y_km eci_z_km), 0, true⟩
  else
    ⟨true, none, 0, false⟩

/-! ### Helper lemmas -/

/-- Unfolding lemma for the rotation step. -/
theorem rotate_eci_to_ecef_eq (gmst x y z : ℝ) :
    rotate_eci_to_ecef gmst x y z =
      (Real.cos (degrees_to_radians gmst) * x + Real.sin (degrees_to_radians gmst) * y,
       -Real.sin (degrees_to_radians gmst) * x + Real.cos (degrees_to_radians gmst) * y,
       z) := rfl

/-- Unfolding lemma for the full transform. -/
theorem eci_to_ecef_eq (jd x y z : ℝ) :
    eci_to_ecef jd x y z =
      (Real.cos (degrees_to_radians (jd_to_gmst jd)) * x
         + Real.sin (degrees_to_radians (jd_to_gmst jd)) * y,
       -Real.sin (degrees_to_radians (jd_to_gmst jd)) * x
         + Real.cos (degrees_to_radians (jd_to_gmst jd)) * y,
       z) := rfl

/-- Python's modulo with a nonzero divisor is the divisor times the fractional
part of the quotient. -/
theorem pymod_eq_mul_fract (a b : ℝ) (hb : b ≠ 0) :
    pymod a b = b * Int.fract (a / b) := by
  unfold pymod Int.fract
  field_simp

/-- Python's modulo with a positive divisor is nonnegative. -/
theorem pymod_nonneg (a b : ℝ) (hb : 0 < b) : 0 ≤ pymod a b := by
  rw [pymod_eq_mul_fract a b hb.ne']
  exact mul_nonneg hb.le (Int.fract_nonneg _)

/-- Python's modulo with a positive divisor is less than the divisor. -/
theorem pymod_lt (a b : ℝ) (hb : 0 < b) : pymod a b < b := by
  rw [pymod_eq_mul_fract a b hb.ne']
  calc b * Int.fract (a / b) < b * 1 := by
        exact mul_lt_mul_of_pos_left (Int.fract_lt_one _) hb
    _ = b := mul_one b

/-- The defensive `if GMST_deg < 0` branch of `jd_to_gmst` never fires, so the
function returns the Python-modulo value directly. -/
theorem jd_to_gmst_eq_pymod (jd : ℝ) :
    jd_to_gmst jd = pymod (GMST_sec jd / 240.0) 360.0 := by
  unfold jd_to_gmst
  exact if_neg (not_lt.mpr (pymod_nonneg _ _ (by norm_num)))

/-! ### Claims -/

/-- C3: for every real Julian Date `jd`, `jd_to_gmst jd` lies in `[0, 360)`. -/
theorem C3_gmst_range (jd : ℝ) :
    0 ≤ jd_to_gmst jd ∧ jd_to_gmst jd < 360 := by
  rw [jd_to_gmst_eq_pymod]
  exact ⟨pymod_nonneg _ _ (by norm_num),
    lt_of_lt_of_le (pymod_lt _ _ (by norm_num)) (by norm_num)⟩

/-- C9: for every real Julian Date, the value `(GMST_sec / 240) % 360` computed
with Python's modulo semantics is already nonnegative, so the defensive branch
adding 360 on negativity is dead and `jd_to_gmst` returns the modulo value
unchanged. -/
theorem C9_defensive_branch_dead (jd : ℝ) :
    ¬ pymod (GMST_sec jd / 240.0) 360.0 < 0 ∧
      jd_to_gmst jd = pymod (GMST_sec jd / 240.0) 360.0 :=
  ⟨not_lt.mpr (pymod_nonneg _ _ (by norm_num)), jd_to_gmst_eq_pymod jd⟩

/-- C6: the third component of `eci_to_ecef` equals the input z-coordinate
exactly; only the x and y components are changed by the rotation. -/
theorem C6_z_component_unchanged (jd x y z : ℝ) :
    (eci_to_ecef jd x y z).2.2 = z := rfl

/-- C7: the rotation step of `eci_to_ecef` at GMST angle 0 returns the input
vector unchanged. -/
theorem C7_identity_at_zero (x y z : ℝ) :
    rotate_eci_to_ecef 0 x y z = (x, y, z) := by
  rw [rotate_eci_to_ecef_eq]
  unfold degrees_to_radians
  norm_num

/-- C5: the Euclidean norm of the output of `eci_to_ecef` equals the Euclidean
norm of the input ECI vector, for every Julian Date and every vector. -/
theorem C5_norm_preserved (jd x y z : ℝ) :
    Real.sqrt ((eci_to_ecef jd x y z).1 ^ 2 + (eci_to_ecef jd x y z).2.1 ^ 2
        + (eci_to_ecef jd x y z).2.2 ^ 2)
      = Real.sqrt (x ^ 2 + y ^ 2 + z ^ 2) := by
  rw [eci_to_ecef_eq]
  congr 1
  linear_combination
    (x ^ 2 + y ^ 2) * Real.sin_sq_add_cos_sq (degrees_to_radians (jd_to_gmst jd))

/-- C1: `ymdhms_to_jd` at (2000, 1, 1, 12, 0, 0) returns exactly 2451545.0,
the J2000.0 epoch Julian Date. -/
theorem C1_jd_at_j2000_epoch : ymdhms_to_jd 2000 1 1 12 0 0 = 2451545 := by
  unfold ymdhms_to_jd
  norm_num

/-- C4: `jd_to_gmst` at exactly 2451545.0 is within `1e-6` of 280.46061837
degrees, the standard GMST reference value at the J2000.0 epoch. -/
theorem C4_gmst_at_j2000 : |jd_to_gmst 2451545 - 280.46061837| ≤ 1e-6 := by
  have hval : jd_to_gmst 2451545 = 67310.54841 / 240 := by
    rw [jd_to_gmst_eq_pymod]
    have hsec : GMST_sec 2451545 = 67310.54841 := by
      unfold GMST_sec
      norm_num
    rw [hsec]
    unfold pymod
    norm_num
  rw [hval, abs_le]
  constructor <;> norm_num

/-- C10: the day field enters the Julian Date purely additively: for every
year, month, day, hour, minute and real second, incrementing the day advances
`ymdhms_to_jd` by exactly one. -/
theorem C10_day_additive (year month day hour minute : ℤ) (second : ℝ) :
    ymdhms_to_jd year month (day + 1) hour minute second
      = ymdhms_to_jd year month day hour minute second + 1 := by
  unfold ymdhms_to_jd
  push_cast
  ring

/-- C8: for year=2023, month=3, day=15, hour=12, minute=0, second=0,
`ymdhms_to_jd` returns exactly 2460019.0, and for the ECI vector
(7000, 0, 0) km the resulting ECEF vector is
(7000·cos θ, −7000·sin θ, 0) where θ is the GMST rotation angle the code
computes from that Julian Date via `jd_to_gmst`. -/
theorem C8_full_round_trip :
    ymdhms_to_jd 2023 3 15 12 0 0 = 2460019 ∧
      eci_to_ecef 2460019 7000 0 0 =
        (7000 * Real.cos (degrees_to_radians (jd_to_gmst 2460019)),
         -(7000 * Real.sin (degrees_to_radians (jd_to_gmst 2460019))),
         0) := by
  constructor
  · unfold ymdhms_to_jd
    norm_num
  · rw [eci_to_ecef_eq]
    simp only [Prod.mk.injEq]
    refine ⟨by ring, by ring, trivial⟩

/-- C2 (counterexample): invoked with 8 user arguments (argv of length 9), the
script prints the usage message, performs no computation and prints no
coordinates, but its exit status is 0 — Python's bare `exit()` — not the
non-zero status the claim requires. -/
theorem C2_counterexample_zero_exit :
    (scriptMain ["eci_to_ecef.py", "2023", "3", "15", "12", "0", "0", "7000"]
        (fun _ => 0) (fun _ => 0)).exitCode = 0 ∧
      (scriptMain ["eci_to_ecef.py", "2023", "3", "15", "12", "0", "0", "7000"]
          (fun _ => 0) (fun _ => 0)).usagePrinted = true :=
  ⟨rfl, rfl⟩

/-- C2 (amended): for any argument vector whose length differs from 10 (script
name plus nine user arguments), the script prints the usage message, performs
no computation, prints no coordinate output, and exits early — but with exit
status 0, since Python's bare `exit()` reports success. -/
theorem C2_usage_on_wrong_arg_count (argv : List String)
    (toInt : String → ℤ) (toFloat : String → ℝ) (h : argv.length ≠ 10) :
    scriptMain argv toInt toFloat = ⟨true, none, 0, false⟩ := by
  unfold scriptMain
  exact if_neg h

/-- Witness for C2: a concrete call with 10 user arguments (argv length 11)
takes the usage path. -/
theorem C2_usage_on_wrong_arg_count_witness :
    (["eci_to_ecef.py", "2023", "3", "15", "12", "0", "0", "7000", "0", "0",
        "extra"] : List String).length ≠ 10 ∧
      scriptMain
          ["eci_to_ecef.py", "2023", "3", "15", "12", "0", "0", "7000", "0", "0",
            "extra"]
          (fun _ => 0) (fun _ => 0) = ⟨true, none, 0, false⟩ :=
  ⟨by decide,
    C2_usage_on_wrong_arg_count _ (fun _ => 0) (fun _ => 0) (by decide)⟩
